import Mathlib

/-!
Verification of the `ludusavi-runner` repository: a shallow embedding of
the retrying HTTP client (`internal/http/client.go`) and the backup cycle
runner (`internal/app/runner.go` together with the domain result types),
with theorems settling the behavioural claims made by the specification.
-/

namespace LudusaviRunner

namespace Http

/-- `RetryConfig` from `internal/http/client.go`.  Delays are modelled as
nanosecond counts (Go `time.Duration` values); `MaxAttempts` is a Go `int`
that every claim constrains to be at least 1, modelled as `Nat`. -/
structure RetryConfig where
  maxAttempts : Nat
  initialDelay : Nat
  maxDelay : Nat
deriving Repr, DecidableEq

/-- `Client.shouldRetry`: a status code is retryable exactly when it is
429 (TooManyRequests), 500 (InternalServerError), 502 (BadGateway),
503 (ServiceUnavailable) or 504 (GatewayTimeout). -/
def shouldRetry (statusCode : Nat) : Bool :=
  statusCode == 429 || statusCode == 500 || statusCode == 502 ||
    statusCode == 503 || statusCode == 504

/-- `Client.calculateDelay`.  The Go code computes
`float64(InitialDelay) * math.Pow(2, float64(attempt-1))` and compares it
with `float64(MaxDelay)`; the model uses exact natural-number arithmetic,
which agrees with the `float64` computation whenever the product stays
below `2^53` nanoseconds (about 104 days), far beyond any configured
delay. -/
def calculateDelay (c : RetryConfig) (attempt : Nat) : Nat :=
  let delay := c.initialDelay * 2 ^ (attempt - 1)
  if delay > c.maxDelay then c.maxDelay else delay

/-- What one call of the underlying `http.Client.Do` plus the body read
can produce inside `Client.Do`: a transport-level error, a successful
transport whose response body fails to read, or a complete response. -/
inductive AttemptOutcome where
  | transportErr (msg : String)
  | bodyReadErr (msg : String)
  | response (status : Nat) (body : String)
deriving Repr, DecidableEq

/-- The `Response` wrapper returned by `Client.Do` (headers omitted; no
claim mentions them). -/
structure Response where
  statusCode : Nat
  body : String
deriving Repr, DecidableEq

/-- The errors `Client.Do` can return: the context's cancellation error
(`ctx.Err()`) or the final `request failed after %d attempts: %w` error
wrapping the last recorded attempt error. -/
inductive DoError where
  | ctxCancelled
  | exhausted (maxAttempts : Nat) (lastErr : Option String)
deriving Repr, DecidableEq

/-- The environment a call of `Client.Do` runs against: the outcome the
target produces for each attempt number (1-based), and, for each
inter-attempt wait, whether the calling context's `Done` channel fires
before the backoff timer does (the two arms of the `select`). -/
structure Env where
  outcome : Nat → AttemptOutcome
  cancelDuringWait : Nat → Bool

/-- Observable behaviour of one `Client.Do` call: the returned
`(*Response, error)` pair, how many times the target was invoked, and the
backoff delays that were waited out in full. -/
structure DoTrace where
  resp : Option Response
  err : Option DoError
  calls : Nat
  delays : List Nat
deriving Repr, DecidableEq

/-- The retry loop of `Client.Do`.  `fuel` is the number of loop
iterations still allowed (`MaxAttempts - attempt + 1` at entry) and
`attempt` the 1-based attempt counter; `lastErr` mirrors the Go
`lastErr` variable.  Each branch follows the source: a transport error
waits (cancellably) only while further attempts remain; a body-read
error records a wrapped error and retries without any delay; a response
with a retryable status waits (cancellably) while further attempts
remain; any other response is returned as-is with a nil error.  When the
loop runs out of attempts the exhaustion error wrapping `lastErr` is
returned with no response. -/
def doLoop (c : RetryConfig) (env : Env) : Nat → Nat → Option String → DoTrace
  | 0, _, lastErr =>
    { resp := none, err := some (DoError.exhausted c.maxAttempts lastErr),
      calls := 0, delays := [] }
  | fuel+1, attempt, _lastErr =>
    match env.outcome attempt with
    | AttemptOutcome.transportErr msg =>
      if attempt < c.maxAttempts then
        if env.cancelDuringWait attempt then
          { resp := none, err := some DoError.ctxCancelled, calls := 1, delays := [] }
        else
          let t := doLoop c env fuel (attempt + 1) (some msg)
          { t with calls := t.calls + 1, delays := calculateDelay c attempt :: t.delays }
      else
        let t := doLoop c env fuel (attempt + 1) (some msg)
        { t with calls := t.calls + 1 }
    | AttemptOutcome.bodyReadErr msg =>
      let t := doLoop c env fuel (attempt + 1)
        (some ("failed to read response body: " ++ msg))
      { t with calls := t.calls + 1 }
    | AttemptOutcome.response status body =>
      if shouldRetry status ∧ attempt < c.maxAttempts then
        if env.cancelDuringWait attempt then
          { resp := none, err := some DoError.ctxCancelled, calls := 1, delays := [] }
        else
          let t := doLoop c env fuel (attempt + 1)
            (some ("HTTP " ++ toString status ++ ": " ++ body))
          { t with calls := t.calls + 1, delays := calculateDelay c attempt :: t.delays }
      else
        { resp := some { statusCode := status, body := body }, err := none,
          calls := 1, delays := [] }

/-- `Client.Do`: run the retry loop from attempt 1 with `MaxAttempts`
iterations available and no recorded error. -/
def clientDo (c : RetryConfig) (env : Env) : DoTrace :=
  doLoop c env c.maxAttempts 1 none

/-- An attempt outcome on which `Client.Do` keeps retrying: any transport
error, any body-read error, or a response whose status is retryable. -/
def retryableOutcome : AttemptOutcome → Bool
  | AttemptOutcome.transportErr _ => true
  | AttemptOutcome.bodyReadErr _ => true
  | AttemptOutcome.response status _ => shouldRetry status

/-- An attempt outcome after which `Client.Do` performs a cancellable
backoff wait (body-read errors retry immediately, without a wait). -/
def waitingOutcome : AttemptOutcome → Bool
  | AttemptOutcome.transportErr _ => true
  | AttemptOutcome.bodyReadErr _ => false
  | AttemptOutcome.response status _ => shouldRetry status

/-- The response `Client.Do` returns when its final attempt produced the
given outcome and every attempt was retryable. -/
def respOfLast : AttemptOutcome → Option Response
  | AttemptOutcome.transportErr _ => none
  | AttemptOutcome.bodyReadErr _ => none
  | AttemptOutcome.response status body => some { statusCode := status, body := body }

/-- The error `Client.Do` returns when its final attempt produced the
given outcome and every attempt was retryable. -/
def errOfLast (c : RetryConfig) : AttemptOutcome → Option DoError
  | AttemptOutcome.transportErr msg =>
    some (DoError.exhausted c.maxAttempts (some msg))
  | AttemptOutcome.bodyReadErr msg =>
    some (DoError.exhausted c.maxAttempts
      (some ("failed to read response body: " ++ msg)))
  | AttemptOutcome.response _ _ => none

lemma doLoop_all_retryable (c : RetryConfig) (env : Env) :
    ∀ (fuel attempt : Nat) (lastErr : Option String),
      attempt + fuel = c.maxAttempts + 1 →
      1 ≤ fuel →
      (∀ n, attempt ≤ n → n ≤ c.maxAttempts → retryableOutcome (env.outcome n) = true) →
      (∀ n, env.cancelDuringWait n = false) →
      (doLoop c env fuel attempt lastErr).calls = fuel ∧
      (doLoop c env fuel attempt lastErr).resp = respOfLast (env.outcome c.maxAttempts) ∧
      (doLoop c env fuel attempt lastErr).err = errOfLast c (env.outcome c.maxAttempts) := by
  intro fuel
  induction fuel with
  | zero =>
    intro attempt lastErr hsum hfuel hretry hcancel
    omega
  | succ f ih =>
    intro attempt lastErr hsum hfuel hretry hcancel
    by_cases hlt : attempt < c.maxAttempts
    · have hf : 1 ≤ f := by omega
      have hle : attempt ≤ c.maxAttempts := by omega
      have hro := hretry attempt le_rfl hle
      have hretry2 : ∀ n, attempt + 1 ≤ n → n ≤ c.maxAttempts →
          retryableOutcome (env.outcome n) = true :=
        fun n h1 h2 => hretry n (by omega) h2
      cases hout : env.outcome attempt with
      | transportErr msg =>
        have ih2 := ih (attempt + 1) (some msg) (by omega) hf hretry2 hcancel
        simp only [doLoop, hout, if_pos hlt, hcancel attempt, if_neg (Bool.false_ne_true)]
        exact ⟨by simp [ih2.1], ih2.2.1, ih2.2.2⟩
      | bodyReadErr msg =>
        have ih2 := ih (attempt + 1)
          (some ("failed to read response body: " ++ msg)) (by omega) hf hretry2 hcancel
        simp only [doLoop, hout]
        exact ⟨by simp [ih2.1], ih2.2.1, ih2.2.2⟩
      | response status body =>
        have hsr : shouldRetry status = true := by
          simpa [retryableOutcome, hout] using hro
        have ih2 := ih (attempt + 1)
          (some ("HTTP " ++ toString status ++ ": " ++ body)) (by omega) hf hretry2 hcancel
        simp only [doLoop, hout, hsr, hlt, and_self, if_true, hcancel attempt,
          if_neg (Bool.false_ne_true)]
        exact ⟨by simp [ih2.1], ih2.2.1, ih2.2.2⟩
    · have ha : attempt = c.maxAttempts := by omega
      have hf0 : f = 0 := by omega
      subst ha
      subst hf0
      cases hout : env.outcome c.maxAttempts with
      | transportErr msg =>
        simp [doLoop, hout, respOfLast, errOfLast]
      | bodyReadErr msg =>
        simp [doLoop, hout, respOfLast, errOfLast]
      | response status body =>
        simp [doLoop, hout, respOfLast, errOfLast]

lemma doLoop_cancel (c : RetryConfig) (env : Env) (n : Nat) :
    ∀ (fuel attempt : Nat) (lastErr : Option String),
      attempt + fuel = c.maxAttempts + 1 →
      attempt ≤ n →
      n < c.maxAttempts →
      (∀ k, attempt ≤ k → k ≤ n → waitingOutcome (env.outcome k) = true) →
      (∀ k, attempt ≤ k → k < n → env.cancelDuringWait k = false) →
      env.cancelDuringWait n = true →
      (doLoop c env fuel attempt lastErr).resp = none ∧
      (doLoop c env fuel attempt lastErr).err = some DoError.ctxCancelled ∧
      (doLoop c env fuel attempt lastErr).calls = n + 1 - attempt := by
  intro fuel
  induction fuel with
  | zero =>
    intro attempt lastErr hsum hle hn hwait hprev hcancel
    omega
  | succ f ih =>
    intro attempt lastErr hsum hle hn hwait hprev hcancel
    have hlt : attempt < c.maxAttempts := by omega
    have hwo := hwait attempt le_rfl hle
    rcases Nat.lt_or_ge attempt n with han | han
    · have hc : env.cancelDuringWait attempt = false := hprev attempt le_rfl han
      have hwait2 : ∀ k, attempt + 1 ≤ k → k ≤ n → waitingOutcome (env.outcome k) = true :=
        fun k h1 h2 => hwait k (by omega) h2
      have hprev2 : ∀ k, attempt + 1 ≤ k → k < n → env.cancelDuringWait k = false :=
        fun k h1 h2 => hprev k (by omega) h2
      cases hout : env.outcome attempt with
      | transportErr msg =>
        have ih2 := ih (attempt + 1) (some msg) (by omega) (by omega) hn hwait2 hprev2 hcancel
        simp only [doLoop, hout, if_pos hlt, hc, if_neg (Bool.false_ne_true)]
        exact ⟨ih2.1, ih2.2.1, by simp [ih2.2.2]; omega⟩
      | bodyReadErr msg =>
        have : waitingOutcome (env.outcome attempt) = false := by
          simp [waitingOutcome, hout]
        simp [this] at hwo
      | response status body =>
        have hsr : shouldRetry status = true := by
          simpa [waitingOutcome, hout] using hwo
        have ih2 := ih (attempt + 1)
          (some ("HTTP " ++ toString status ++ ": " ++ body)) (by omega) (by omega) hn
          hwait2 hprev2 hcancel
        simp only [doLoop, hout, hsr, hlt, and_self, if_true, hc,
          if_neg (Bool.false_ne_true)]
        exact ⟨ih2.1, ih2.2.1, by simp [ih2.2.2]; omega⟩
    · have ha : attempt = n := by omega
      subst ha
      cases hout : env.outcome attempt with
      | transportErr msg =>
        simp [doLoop, hout, if_pos hlt, hcancel]
      | bodyReadErr msg =>
        have : waitingOutcome (env.outcome attempt) = false := by
          simp [waitingOutcome, hout]
        simp [this] at hwo
      | response status body =>
        have hsr : shouldRetry status = true := by
          simpa [waitingOutcome, hout] using hwo
        simp [doLoop, hout, hsr, hlt, hcancel]

/-- A retry policy with three attempts, used for concrete evaluations. -/
def threeAttemptCfg : RetryConfig :=
  { maxAttempts := 3, initialDelay := 1, maxDelay := 10 }

/-- A target that answers every attempt with HTTP 503 and a context that
is never cancelled. -/
def always503Env : Env :=
  { outcome := fun _ => AttemptOutcome.response 503 "unavailable",
    cancelDuringWait := fun _ => false }

/-- A target that fails every attempt at the transport level and a
context that is never cancelled. -/
def alwaysTransportEnv : Env :=
  { outcome := fun _ => AttemptOutcome.transportErr "connection refused",
    cancelDuringWait := fun _ => false }

/-- C1 counterexample: with `MaxAttempts = 3` and a target returning a
retryable 503 on all three attempts, `Client.Do` makes exactly 3 calls
but returns the last response with a NIL error — not, as the claim
states, alongside a non-nil exhaustion error.  (The repository's own
test `TestClient_Retry_Exhausted` requires exactly this nil-error
behaviour.) -/
theorem C1_exhaustion_counterexample :
    (clientDo threeAttemptCfg always503Env).calls = 3 ∧
    (clientDo threeAttemptCfg always503Env).resp =
      some { statusCode := 503, body := "unavailable" } ∧
    (clientDo threeAttemptCfg always503Env).err = none := by
  decide

/-- C1 (amended): for every retry policy with `MaxAttempts = N ≥ 1` and
every target yielding a retryable outcome on all `N` attempts (with no
cancellation), `Client.Do` calls the target exactly `N` times; if the
last attempt produced an HTTP response it returns that response with a
nil error, and if the last attempt failed at the transport level (or
reading the body failed) it returns no response and the exhaustion error
wrapping the last attempt's error. -/
theorem C1_retry_exhaustion_amended (c : RetryConfig) (env : Env) (N : Nat)
    (hmax : c.maxAttempts = N) (hN : 1 ≤ N)
    (hretry : ∀ n, 1 ≤ n → n ≤ N → retryableOutcome (env.outcome n) = true)
    (hnocancel : ∀ n, env.cancelDuringWait n = false) :
    (clientDo c env).calls = N ∧
    (clientDo c env).resp = respOfLast (env.outcome N) ∧
    (clientDo c env).err = errOfLast c (env.outcome N) := by
  subst hmax
  exact doLoop_all_retryable c env c.maxAttempts 1 none (by omega) (by omega)
    (fun n h1 h2 => hretry n h1 h2) hnocancel

/-- Witness for `C1_retry_exhaustion_amended` at a concrete policy and
target: three transport failures exhaust the three attempts and yield the
wrapped last transport error with no response. -/
theorem C1_retry_exhaustion_amended_witness :
    (clientDo threeAttemptCfg alwaysTransportEnv).calls = 3 ∧
    (clientDo threeAttemptCfg alwaysTransportEnv).resp = none ∧
    (clientDo threeAttemptCfg alwaysTransportEnv).err =
      some (DoError.exhausted 3 (some "connection refused")) := by
  have h := C1_retry_exhaustion_amended threeAttemptCfg alwaysTransportEnv 3 rfl
    (by decide) (fun n h1 h2 => rfl) (fun n => rfl)
  exact ⟨h.1, h.2.1.trans rfl, h.2.2.trans rfl⟩

/-- The concrete policy of the spec's backoff example: `InitialDelay` one
second, `MaxDelay` ten seconds (in nanoseconds). -/
def backoffExampleCfg : RetryConfig :=
  { maxAttempts := 5, initialDelay := 1000000000, maxDelay := 10000000000 }

/-- C3: for every retry policy and failed attempt number `n ≥ 1`,
`calculateDelay` returns `min(MaxDelay, InitialDelay * 2^(n-1))`; in
particular with `InitialDelay` 1s and `MaxDelay` 10s the delays after
attempts 1..5 are 1s, 2s, 4s, 8s and 10s (capped). -/
theorem C3_backoff_delay (c : RetryConfig) (n : Nat) (h : 1 ≤ n) :
    calculateDelay c n = min c.maxDelay (c.initialDelay * 2 ^ (n - 1)) ∧
    [1, 2, 3, 4, 5].map (calculateDelay backoffExampleCfg) =
      [1000000000, 2000000000, 4000000000, 8000000000, 10000000000] := by
  constructor
  · simp only [calculateDelay]
    split <;> omega
  · decide

/-- Witness for `C3_backoff_delay` at attempt 5 of the example policy:
the uncapped delay 16s is capped to `MaxDelay` = 10s. -/
theorem C3_backoff_delay_witness :
    calculateDelay backoffExampleCfg 5 =
      min backoffExampleCfg.maxDelay (backoffExampleCfg.initialDelay * 2 ^ (5 - 1)) :=
  (C3_backoff_delay backoffExampleCfg 5 (by decide)).1

/-- C4: for every retry policy with at least one attempt, a target whose
first answer is a response with a non-retryable status is called exactly
once, the response is returned as-is with a nil error, and a status is
classified retryable exactly when it lies in {429, 500, 502, 503, 504}. -/
theorem C4_non_retryable_immediate (c : RetryConfig) (env : Env)
    (status : Nat) (body : String)
    (hmax : 1 ≤ c.maxAttempts)
    (hout : env.outcome 1 = AttemptOutcome.response status body)
    (hnr : shouldRetry status = false) :
    (clientDo c env).calls = 1 ∧
    (clientDo c env).resp = some { statusCode := status, body := body } ∧
    (clientDo c env).err = none ∧
    (∀ s, shouldRetry s = true ↔
      (s = 429 ∨ s = 500 ∨ s = 502 ∨ s = 503 ∨ s = 504)) := by
  obtain ⟨m, hm⟩ : ∃ m, c.maxAttempts = m + 1 := ⟨c.maxAttempts - 1, by omega⟩
  refine ⟨?_, ?_, ?_, ?_⟩
  · simp [clientDo, hm, doLoop, hout, hnr]
  · simp [clientDo, hm, doLoop, hout, hnr]
  · simp [clientDo, hm, doLoop, hout, hnr]
  · intro s
    simp only [shouldRetry, Bool.or_eq_true, beq_iff_eq]
    tauto

/-- A target answering 404 immediately, with a five-attempt policy. -/
def notFoundEnv : Env :=
  { outcome := fun _ => AttemptOutcome.response 404 "not found",
    cancelDuringWait := fun _ => false }

/-- Witness for `C4_non_retryable_immediate`: a 404 under a five-attempt
policy is returned after a single call with a nil error. -/
theorem C4_non_retryable_immediate_witness :
    (clientDo backoffExampleCfg notFoundEnv).calls = 1 ∧
    (clientDo backoffExampleCfg notFoundEnv).resp =
      some { statusCode := 404, body := "not found" } ∧
    (clientDo backoffExampleCfg notFoundEnv).err = none := by
  have h := C4_non_retryable_immediate backoffExampleCfg notFoundEnv 404 "not found"
    (by decide) rfl (by decide)
  exact ⟨h.1, h.2.1, h.2.2.1⟩

/-- C5: if the calling context's cancellation fires during the backoff
wait after attempt `n` (every attempt up to `n` having ended in a
wait-inducing retryable outcome and no earlier wait having been
cancelled), `Client.Do` returns the context's cancellation error with no
response — not a retry-exhaustion error — and makes no further attempts
(exactly `n` calls, although `n < MaxAttempts`).  The real-time aspect
(returning within the delay window) is modelled by the `select` arm
taking the `ctx.Done()` branch. -/
theorem C5_cancel_during_wait (c : RetryConfig) (env : Env) (n : Nat)
    (h1 : 1 ≤ n) (h2 : n < c.maxAttempts)
    (hwait : ∀ k, 1 ≤ k → k ≤ n → waitingOutcome (env.outcome k) = true)
    (hprev : ∀ k, 1 ≤ k → k < n → env.cancelDuringWait k = false)
    (hcancel : env.cancelDuringWait n = true) :
    (clientDo c env).resp = none ∧
    (clientDo c env).err = some DoError.ctxCancelled ∧
    (clientDo c env).calls = n := by
  have h := doLoop_cancel c env n c.maxAttempts 1 none (by omega) h1 h2
    (fun k hk1 hk2 => hwait k hk1 hk2) (fun k hk1 hk2 => hprev k hk1 hk2) hcancel
  refine ⟨h.1, h.2.1, ?_⟩
  have hc : (clientDo c env).calls = n + 1 - 1 := h.2.2
  omega

/-- A target that always answers 500 with the context cancelled during
the very first backoff wait. -/
def cancelFirstWaitEnv : Env :=
  { outcome := fun _ => AttemptOutcome.response 500 "boom",
    cancelDuringWait := fun _ => true }

/-- Witness for `C5_cancel_during_wait`: cancelling during the wait after
attempt 1 of a three-attempt policy returns the cancellation error after
a single call. -/
theorem C5_cancel_during_wait_witness :
    (clientDo threeAttemptCfg cancelFirstWaitEnv).resp = none ∧
    (clientDo threeAttemptCfg cancelFirstWaitEnv).err = some DoError.ctxCancelled ∧
    (clientDo threeAttemptCfg cancelFirstWaitEnv).calls = 1 :=
  C5_cancel_during_wait threeAttemptCfg cancelFirstWaitEnv 1 (by decide) (by decide)
    (fun k hk1 hk2 => rfl) (fun k hk1 hk2 => by omega) rfl

end Http

namespace App

/-- `domain.OperationType` (`internal/domain`, the unnamed domain file):
the kind of an operation result. -/
inductive OperationType where
  | backup
  | cloudUpload
deriving Repr, DecidableEq

/-- `domain.BackupStats`.  Go `int`/`int64` counters, modelled as `Int`. -/
structure BackupStats where
  totalGames : Int
  processedGames : Int
  totalBytes : Int
  processedBytes : Int
  newGames : Int
  changedGames : Int
  sameGames : Int
deriving Repr, DecidableEq

/-- The zero-valued statistics record (the Go zero value). -/
def BackupStats.zero : BackupStats :=
  { totalGames := 0, processedGames := 0, totalBytes := 0, processedBytes := 0,
    newGames := 0, changedGames := 0, sameGames := 0 }

/-- `domain.BackupResult`: the result of one operation.  The wall-clock
fields (`StartTime`, `EndTime`, `Duration`) are omitted: no claim is
about real time. -/
structure BackupResult where
  operation : OperationType
  success : Bool
  stats : BackupStats
  error : String
deriving Repr, DecidableEq

/-- `domain.NewBackupResult`: only the operation kind is set; the other
fields keep their Go zero values. -/
def NewBackupResult (op : OperationType) : BackupResult :=
  { operation := op, success := false, stats := BackupStats.zero, error := "" }

/-- `BackupResult.Complete`: record the success flag and, when an error
is present, its text. -/
def BackupResult.complete (r : BackupResult) (success : Bool)
    (err : Option String) : BackupResult :=
  match err with
  | some e => { r with success := success, error := e }
  | none => { r with success := success }

/-- `domain.RunResult`: the result of one whole cycle (wall-clock fields
omitted as above). -/
structure RunResult where
  success : Bool
  dryRun : Bool
  backup : Option BackupResult
  cloudUpload : Option BackupResult
  errors : List String
deriving Repr, DecidableEq

/-- `domain.NewRunResult`. -/
def NewRunResult (dryRun : Bool) : RunResult :=
  { success := false, dryRun := dryRun, backup := none, cloudUpload := none,
    errors := [] }

/-- `RunResult.Complete`: success iff both operations succeeded or were
not run; nothing else (in particular not the auxiliary error list) is
consulted. -/
def RunResult.complete (r : RunResult) : RunResult :=
  let success := true
  let success :=
    match r.cloudUpload with
    | some u => if !u.success then false else success
    | none => success
  let success :=
    match r.backup with
    | some b => if !b.success then false else success
    | none => success
  { r with success := success }

/-- `RunResult.AddError`: append the error's text when one is present. -/
def RunResult.addError (r : RunResult) (err : Option String) : RunResult :=
  match err with
  | some e => { r with errors := r.errors ++ [e] }
  | none => r

/-- `domain.Metrics` (timestamp and version strings omitted: no claim
mentions them). -/
structure Metrics where
  hostname : String
  serviceUp : Bool
  results : List BackupResult
deriving Repr, DecidableEq

/-- `domain.NewMetrics`. -/
def NewMetrics (hostname : String) : Metrics :=
  { hostname := hostname, serviceUp := true, results := [] }

/-- `Metrics.AddResult`: append the result when the pointer is non-nil. -/
def Metrics.addResult (m : Metrics) (r : Option BackupResult) : Metrics :=
  match r with
  | some res => { m with results := m.results ++ [res] }
  | none => m

/-- `domain.NotificationLevel`. -/
inductive NotificationLevel where
  | info
  | warning
  | error
deriving Repr, DecidableEq

/-- `domain.Notification`. -/
structure Notification where
  title : String
  body : String
  level : NotificationLevel
deriving Repr, DecidableEq

/-- `domain.InfoNotification`. -/
def InfoNotification (title body : String) : Notification :=
  { title := title, body := body, level := NotificationLevel.info }

/-- `domain.ErrorNotification`. -/
def ErrorNotification (title body : String) : Notification :=
  { title := title, body := body, level := NotificationLevel.error }

/-- `config.NotifyLevel` (`internal/config/defaults.go`). -/
inductive NotifyLevel where
  | error
  | warning
  | always
deriving Repr, DecidableEq

/-- The part of `config.AppriseConfig` the Runner reads. -/
structure AppriseConfig where
  notify : NotifyLevel
deriving Repr, DecidableEq

/-- The part of `config.Config` the Runner reads: `DryRun` and
`Apprise.Notify`. -/
structure Config where
  dryRun : Bool
  apprise : AppriseConfig
deriving Repr, DecidableEq

/-- `domain.UploadOptions`. -/
structure UploadOptions where
  force : Bool
deriving Repr, DecidableEq

/-- `domain.BackupOptions`. -/
structure BackupOptions where
  force : Bool
deriving Repr, DecidableEq

/-- The `domain.Executor` interface: each method returns either an
invocation error (`(nil, err)` in Go) or an operation result
(`(result, nil)`).  `Version` and `Validate` are omitted: the Runner
never calls them. -/
structure Executor where
  cloudUpload : UploadOptions → Except String BackupResult
  backup : BackupOptions → Except String BackupResult

/-- `app.Runner`: the collaborators and configuration (logger omitted).
A `MetricsPusher` is its `Push` method, a `Notifier` its `Notify`
method; each returns the error of the call, `none` for success. -/
structure Runner where
  executor : Option Executor
  metricsPusher : Option (Metrics → Option String)
  notifier : Option (Notification → Option String)
  config : Config
  hostname : String

/-- `domain.NopNotifier.Notify`: always succeeds. -/
def NopNotifier : Notification → Option String := fun _ => none

/-- Outcome of `Runner.runCloudUpload` / `Runner.runBackup`: the returned
`(*BackupResult, error)` pair, plus whether the Executor was invoked
(there is no invocation in dry-run mode). -/
structure OpOutcome where
  result : Option BackupResult
  err : Option String
  invokedExecutor : Bool

/-- `Runner.runCloudUpload`: in dry-run mode return a synthetic
successful result without touching the executor; otherwise invoke
`Executor.CloudUpload` with `Force: true`, wrapping an invocation error
and returning no result in that case. -/
def Runner.runCloudUpload (r : Runner) (ex : Executor) : OpOutcome :=
  if r.config.dryRun then
    let result := NewBackupResult OperationType.cloudUpload
    let result := result.complete true none
    { result := some result, err := none, invokedExecutor := false }
  else
    match ex.cloudUpload { force := true } with
    | Except.error e =>
      { result := none, err := some ("cloud upload error: " ++ e),
        invokedExecutor := true }
    | Except.ok result =>
      { result := some result, err := none, invokedExecutor := true }

/-- `Runner.runBackup`: the same shape for the local backup. -/
def Runner.runBackup (r : Runner) (ex : Executor) : OpOutcome :=
  if r.config.dryRun then
    let result := NewBackupResult OperationType.backup
    let result := result.complete true none
    { result := some result, err := none, invokedExecutor := false }
  else
    match ex.backup { force := true } with
    | Except.error e =>
      { result := none, err := some ("backup error: " ++ e),
        invokedExecutor := true }
    | Except.ok result =>
      { result := some result, err := none, invokedExecutor := true }

/-- `Runner.pushMetrics`: nothing to do without a pusher; otherwise
build the snapshot (hostname, `ServiceUp = true`, the present operation
results) and push it.  Returns the push error and the list of attempted
pushes. -/
def Runner.pushMetrics (r : Runner) (result : RunResult) :
    Option String × List Metrics :=
  match r.metricsPusher with
  | none => (none, [])
  | some pusher =>
    let m := NewMetrics r.hostname
    let m := { m with serviceUp := true }
    let m := m.addResult result.cloudUpload
    let m := m.addResult result.backup
    (pusher m, [m])

/-- `Runner.buildErrorMessage`. -/
def Runner.buildErrorMessage (r : Runner) (result : RunResult) : String :=
  let msg := "Backup failed on " ++ r.hostname ++ ".\n"
  let msg :=
    match result.cloudUpload with
    | some u =>
      if !u.success then msg ++ "Cloud upload error: " ++ u.error ++ "\n" else msg
    | none => msg
  let msg :=
    match result.backup with
    | some b =>
      if !b.success then msg ++ "Backup error: " ++ b.error ++ "\n" else msg
    | none => msg
  result.errors.foldl (fun acc e => acc ++ "Error: " ++ e ++ "\n") msg

/-- `Runner.buildSuccessMessage` (the final rounded-duration line is
modelled without a numeric value, time being outside the model). -/
def Runner.buildSuccessMessage (r : Runner) (result : RunResult) : String :=
  let msg := "Backup completed successfully on " ++ r.hostname ++ ".\n"
  let msg :=
    match result.backup with
    | some b =>
      let msg := msg ++ "Games: " ++ toString b.stats.totalGames ++ " total, " ++
        toString b.stats.processedGames ++ " processed\n"
      if b.stats.newGames > 0 ∨ b.stats.changedGames > 0 then
        msg ++ "Changes: " ++ toString b.stats.newGames ++ " new, " ++
          toString b.stats.changedGames ++ " updated\n"
      else msg
    | none => msg
  msg ++ "Duration: "

/-- The decision logic of `Runner.sendNotifications`: on a failed cycle
with level Error, Warning or Always an error notification; otherwise,
with level Always, an info notification; otherwise nothing. -/
def Runner.notificationFor (r : Runner) (result : RunResult) : Option Notification :=
  let notifyLevel := r.config.apprise.notify
  if result.success = false ∧ (notifyLevel = NotifyLevel.error ∨
      notifyLevel = NotifyLevel.warning ∨ notifyLevel = NotifyLevel.always) then
    some (ErrorNotification "Ludusavi Backup Failed" (r.buildErrorMessage result))
  else if notifyLevel = NotifyLevel.always then
    some (InfoNotification "Ludusavi Backup Completed" (r.buildSuccessMessage result))
  else
    none

/-- `Runner.sendNotifications`: nothing without a notifier or when the
policy warrants no notification; otherwise send it.  Returns the
notifier's error and the list of notifications sent. -/
def Runner.sendNotifications (r : Runner) (result : RunResult) :
    Option String × List Notification :=
  match r.notifier with
  | none => (none, [])
  | some notifier =>
    match r.notificationFor result with
    | none => (none, [])
    | some n => (notifier n, [n])

/-- Observable behaviour of one `Runner.Run` call: the returned
`(*RunResult, error)` pair, which Executor operations were invoked, the
metrics pushes attempted together with the push error, and the
notifications sent. -/
structure RunTrace where
  result : RunResult
  runErr : Option String
  executorCalls : List OperationType
  metricsPushes : List Metrics
  pushErr : Option String
  notificationsSent : List Notification

/-- `Runner.Run`: create the result; when an executor is configured run
cloud upload then backup, recording each invocation error in the
auxiliary list and each returned result in its field; `Complete` the
result; push metrics, recording a push failure as an auxiliary error;
evaluate and send notifications (their failure is only logged); return
the result with a nil error. -/
def Runner.run (r : Runner) : RunTrace :=
  let result0 := NewRunResult r.config.dryRun
  let opsStage :=
    match r.executor with
    | some ex =>
      let upload := r.runCloudUpload ex
      let r1 := result0.addError upload.err
      let r1 := { r1 with cloudUpload := upload.result }
      let backup := r.runBackup ex
      let r2 := r1.addError backup.err
      let r2 := { r2 with backup := backup.result }
      (r2,
        (if upload.invokedExecutor then [OperationType.cloudUpload] else []) ++
          (if backup.invokedExecutor then [OperationType.backup] else []))
    | none => (result0, ([] : List OperationType))
  let completed := opsStage.1.complete
  let push := r.pushMetrics completed
  let merged := completed.addError push.1
  let sent := (r.sendNotifications merged).2
  { result := merged, runErr := none, executorCalls := opsStage.2,
    metricsPushes := push.2, pushErr := push.1, notificationsSent := sent }

/-- The success flag an optional operation result contributes to the
cycle's success: vacuously true when the operation was not run. -/
def optSuccess : Option BackupResult → Bool
  | some b => b.success
  | none => true

lemma addError_success (r : RunResult) (e : Option String) :
    (r.addError e).success = r.success := by
  cases e <;> rfl

lemma addError_cloudUpload (r : RunResult) (e : Option String) :
    (r.addError e).cloudUpload = r.cloudUpload := by
  cases e <;> rfl

lemma addError_backup (r : RunResult) (e : Option String) :
    (r.addError e).backup = r.backup := by
  cases e <;> rfl

lemma complete_cloudUpload (r : RunResult) :
    r.complete.cloudUpload = r.cloudUpload := rfl

lemma complete_backup (r : RunResult) :
    r.complete.backup = r.backup := rfl

lemma complete_success (r : RunResult) :
    r.complete.success = (optSuccess r.cloudUpload && optSuccess r.backup) := by
  cases hcu : r.cloudUpload with
  | none =>
    cases hb : r.backup with
    | none => simp [RunResult.complete, hcu, hb, optSuccess]
    | some b =>
      cases hsb : b.success <;>
        simp [RunResult.complete, hcu, hb, optSuccess, hsb]
  | some u =>
    cases hb : r.backup with
    | none =>
      cases hsu : u.success <;>
        simp [RunResult.complete, hcu, hb, optSuccess, hsu]
    | some b =>
      cases hsu : u.success <;> cases hsb : b.success <;>
        simp [RunResult.complete, hcu, hb, optSuccess, hsu, hsb]

lemma run_success (r : Runner) :
    (r.run).result.success =
      (optSuccess (r.run).result.cloudUpload && optSuccess (r.run).result.backup) := by
  simp only [Runner.run]
  rw [addError_success, complete_success, addError_cloudUpload, addError_backup,
    complete_cloudUpload, complete_backup]

lemma run_cloudUpload_some (r : Runner) (ex : Executor)
    (hex : r.executor = some ex) :
    (r.run).result.cloudUpload = (r.runCloudUpload ex).result := by
  simp only [Runner.run, hex]
  rw [addError_cloudUpload, complete_cloudUpload]
  simp [addError_cloudUpload]

lemma run_backup_some (r : Runner) (ex : Executor)
    (hex : r.executor = some ex) :
    (r.run).result.backup = (r.runBackup ex).result := by
  simp only [Runner.run, hex]
  rw [addError_backup, complete_backup]

lemma sendNotifications_snd (r : Runner) (res : RunResult) :
    (r.sendNotifications res).2 =
      (match r.notifier with
       | none => []
       | some _ =>
         match r.notificationFor res with
         | none => []
         | some n => [n]) := by
  cases hn : r.notifier with
  | none => simp [Runner.sendNotifications, hn]
  | some notifier =>
    cases hd : r.notificationFor res <;>
      simp [Runner.sendNotifications, hn, hd]

/-- A successful cloud-upload operation result. -/
def okUploadResult : BackupResult :=
  { operation := OperationType.cloudUpload, success := true,
    stats := BackupStats.zero, error := "" }

/-- A successful local-backup operation result. -/
def okBackupResult : BackupResult :=
  { operation := OperationType.backup, success := true,
    stats := BackupStats.zero, error := "" }

/-- An unsuccessful cloud-upload operation result. -/
def failedUploadResult : BackupResult :=
  { operation := OperationType.cloudUpload, success := false,
    stats := BackupStats.zero, error := "rclone sync failed" }

/-- An executor whose operations both succeed. -/
def happyExecutor : Executor :=
  { cloudUpload := fun _ => Except.ok okUploadResult,
    backup := fun _ => Except.ok okBackupResult }

/-- An executor whose cloud-upload invocation itself errors (the
`(nil, err)` return) while backup succeeds. -/
def crashUploadExecutor : Executor :=
  { cloudUpload := fun _ => Except.error "ludusavi not found",
    backup := fun _ => Except.ok okBackupResult }

/-- An executor whose cloud upload returns an unsuccessful result (the
`(result, nil)` return with `Success = false`) while backup succeeds. -/
def failUploadExecutor : Executor :=
  { cloudUpload := fun _ => Except.ok failedUploadResult,
    backup := fun _ => Except.ok okBackupResult }

/-- A live (non-dry-run) configuration notifying on errors. -/
def liveConfig : Config :=
  { dryRun := false, apprise := { notify := NotifyLevel.error } }

/-- The dry-run variant of `liveConfig`. -/
def dryConfig : Config :=
  { dryRun := true, apprise := { notify := NotifyLevel.error } }

/-- A live runner whose cloud-upload invocation errors. -/
def crashUploadRunner : Runner :=
  { executor := some crashUploadExecutor, metricsPusher := none,
    notifier := some NopNotifier, config := liveConfig, hostname := "host" }

/-- C2 counterexample: in a live cycle where the CloudUpload invocation
fails (the executor returns an error) and Backup succeeds, Backup is
still attempted, but — contrary to the claim — the returned CycleResult
records NO CloudUpload OperationResult (only the auxiliary error) and
`Success` is true, not false: `RunResult.Complete` ignores operations
that left no result. -/
theorem C2_counterexample :
    (crashUploadRunner.run).executorCalls =
      [OperationType.cloudUpload, OperationType.backup] ∧
    (crashUploadRunner.run).result.cloudUpload = none ∧
    (crashUploadRunner.run).result.backup = some okBackupResult ∧
    (crashUploadRunner.run).result.errors =
      ["cloud upload error: ludusavi not found"] ∧
    (crashUploadRunner.run).result.success = true := by
  exact ⟨rfl, rfl, rfl, rfl, rfl⟩

/-- C2 (amended): in every live cycle where the CloudUpload operation
fails by returning an unsuccessful OperationResult (its invocation
succeeding) and Backup succeeds, both executor operations are invoked
(CloudUpload failure never skips Backup), both OperationResults are
recorded and distinguishable by kind, and `CycleResult.Success` is
false.  (When the CloudUpload invocation itself errors, no CloudUpload
OperationResult is recorded and `Success` reflects Backup alone — see
the counterexample.) -/
theorem C2_upload_failure_amended (r : Runner) (ex : Executor)
    (u b : BackupResult)
    (hex : r.executor = some ex) (hdry : r.config.dryRun = false)
    (hu : ex.cloudUpload { force := true } = Except.ok u)
    (hb : ex.backup { force := true } = Except.ok b)
    (huf : u.success = false) (hbs : b.success = true)
    (huop : u.operation = OperationType.cloudUpload)
    (hbop : b.operation = OperationType.backup) :
    (r.run).executorCalls = [OperationType.cloudUpload, OperationType.backup] ∧
    (r.run).result.cloudUpload = some u ∧
    (r.run).result.backup = some b ∧
    u.operation ≠ b.operation ∧
    (r.run).result.success = false := by
  refine ⟨?_, ?_, ?_, ?_, ?_⟩
  · simp [Runner.run, hex, Runner.runCloudUpload, Runner.runBackup, hdry, hu, hb]
  · rw [run_cloudUpload_some r ex hex]
    simp [Runner.runCloudUpload, hdry, hu]
  · rw [run_backup_some r ex hex]
    simp [Runner.runBackup, hdry, hb]
  · rw [huop, hbop]
    decide
  · rw [run_success, run_cloudUpload_some r ex hex, run_backup_some r ex hex]
    simp [Runner.runCloudUpload, Runner.runBackup, hdry, hu, hb, optSuccess, huf]

/-- A live runner whose cloud upload returns an unsuccessful result. -/
def failUploadRunner : Runner :=
  { executor := some failUploadExecutor, metricsPusher := none,
    notifier := some NopNotifier, config := liveConfig, hostname := "host" }

/-- Witness for `C2_upload_failure_amended` on a concrete runner. -/
theorem C2_upload_failure_amended_witness :
    (failUploadRunner.run).executorCalls =
      [OperationType.cloudUpload, OperationType.backup] ∧
    (failUploadRunner.run).result.cloudUpload = some failedUploadResult ∧
    (failUploadRunner.run).result.backup = some okBackupResult ∧
    failedUploadResult.operation ≠ okBackupResult.operation ∧
    (failUploadRunner.run).result.success = false :=
  C2_upload_failure_amended failUploadRunner failUploadExecutor failedUploadResult
    okBackupResult rfl rfl rfl rfl rfl rfl rfl rfl

/-- C6: a dry-run cycle with an executor configured never invokes the
executor and yields a successful CycleResult containing one synthetic
successful OperationResult per kind, each with zero statistics and no
error text. -/
theorem C6_dry_run (r : Runner) (ex : Executor)
    (hex : r.executor = some ex) (hdry : r.config.dryRun = true) :
    (r.run).executorCalls = [] ∧
    (r.run).result.success = true ∧
    (r.run).result.cloudUpload = some
      { operation := OperationType.cloudUpload, success := true,
        stats := BackupStats.zero, error := "" } ∧
    (r.run).result.backup = some
      { operation := OperationType.backup, success := true,
        stats := BackupStats.zero, error := "" } := by
  refine ⟨?_, ?_, ?_, ?_⟩
  · simp [Runner.run, hex, Runner.runCloudUpload, Runner.runBackup, hdry]
  · rw [run_success, run_cloudUpload_some r ex hex, run_backup_some r ex hex]
    simp [Runner.runCloudUpload, Runner.runBackup, hdry, optSuccess,
      NewBackupResult, BackupResult.complete]
  · rw [run_cloudUpload_some r ex hex]
    simp [Runner.runCloudUpload, hdry, NewBackupResult, BackupResult.complete,
      BackupStats.zero]
  · rw [run_backup_some r ex hex]
    simp [Runner.runBackup, hdry, NewBackupResult, BackupResult.complete,
      BackupStats.zero]

/-- A dry-run runner whose executor would fail if it were ever invoked. -/
def dryRunner : Runner :=
  { executor := some crashUploadExecutor, metricsPusher := some (fun _ => none),
    notifier := some NopNotifier, config := dryConfig, hostname := "host" }

/-- Witness for `C6_dry_run` on a concrete runner. -/
theorem C6_dry_run_witness :
    (dryRunner.run).executorCalls = [] ∧
    (dryRunner.run).result.success = true ∧
    (dryRunner.run).result.cloudUpload = some
      { operation := OperationType.cloudUpload, success := true,
        stats := BackupStats.zero, error := "" } ∧
    (dryRunner.run).result.backup = some
      { operation := OperationType.backup, success := true,
        stats := BackupStats.zero, error := "" } :=
  C6_dry_run dryRunner crashUploadExecutor rfl rfl

/-- A live runner whose operations both succeed but whose metrics push
fails. -/
def metricsFailRunner : Runner :=
  { executor := some happyExecutor,
    metricsPusher := some (fun _ => some "metrics push failed"),
    notifier := some NopNotifier, config := liveConfig, hostname := "host" }

/-- C7 counterexample: a cycle in which both operations succeed and the
metrics push fails.  The push failure IS merged into the auxiliary error
list (after `Complete`), but — contrary to the claim — `Success` stays
true: `AddError` never touches the success flag and `Complete` is not
re-run. -/
theorem C7_counterexample :
    (metricsFailRunner.run).result.cloudUpload = some okUploadResult ∧
    (metricsFailRunner.run).result.backup = some okBackupResult ∧
    (metricsFailRunner.run).pushErr = some "metrics push failed" ∧
    (metricsFailRunner.run).result.errors = ["metrics push failed"] ∧
    (metricsFailRunner.run).result.success = true := by
  exact ⟨rfl, rfl, rfl, rfl, rfl⟩

/-- C7 (amended): in every cycle the metrics-push failure, when one
occurs, is merged into the CycleResult's auxiliary error list (a
mutation happening after `Complete`), but it never affects
`CycleResult.Success`, which always equals the conjunction of the
recorded operation successes. -/
theorem C7_metrics_failure_amended (r : Runner) :
    (r.run).result.success =
      (optSuccess (r.run).result.cloudUpload &&
        optSuccess (r.run).result.backup) ∧
    (∀ e, (r.run).pushErr = some e → e ∈ (r.run).result.errors) := by
  constructor
  · simp only [Runner.run]
    rw [addError_success, complete_success, addError_cloudUpload, addError_backup,
      complete_cloudUpload, complete_backup]
  · intro e he
    simp only [Runner.run] at he ⊢
    rw [he]
    simp [RunResult.addError]

/-- Witness for `C7_metrics_failure_amended` on the concrete cycle whose
metrics push fails. -/
theorem C7_metrics_failure_amended_witness :
    (metricsFailRunner.run).result.success =
      (optSuccess (metricsFailRunner.run).result.cloudUpload &&
        optSuccess (metricsFailRunner.run).result.backup) ∧
    "metrics push failed" ∈ (metricsFailRunner.run).result.errors :=
  ⟨(C7_metrics_failure_amended metricsFailRunner).1,
    (C7_metrics_failure_amended metricsFailRunner).2 "metrics push failed" rfl⟩

/-- C8: `Runner.Run` always returns its populated CycleResult with a nil
error; the returned result is independent of the notifier (a
notification failure is never promoted), and the notification step is
evaluated on the final result on every path — in particular a
metrics-push failure does not prevent it. -/
theorem C8_run_reporting (r : Runner)
    (n1 n2 : Option (Notification → Option String)) :
    ({ r with notifier := n1 } : Runner).run.runErr = none ∧
    ({ r with notifier := n1 } : Runner).run.result =
      ({ r with notifier := n2 } : Runner).run.result ∧
    (r.run).notificationsSent =
      (match r.notifier with
       | none => []
       | some _ =>
         match r.notificationFor (r.run).result with
         | none => []
         | some n => [n]) := by
  refine ⟨rfl, rfl, ?_⟩
  show (r.sendNotifications (r.run).result).2 = _
  rw [sendNotifications_snd]

/-- C9: for every completed cycle result, level Always notifies on both
success (an info notification) and failure (an error notification);
levels Error and Warning notify exactly on failure, and behave
identically. -/
theorem C9_notification_policy (r : Runner) (res : RunResult) :
    (r.config.apprise.notify = NotifyLevel.always →
      (res.success = false →
        r.notificationFor res = some (ErrorNotification "Ludusavi Backup Failed"
          (r.buildErrorMessage res))) ∧
      (res.success = true →
        r.notificationFor res = some (InfoNotification "Ludusavi Backup Completed"
          (r.buildSuccessMessage res)))) ∧
    ((r.config.apprise.notify = NotifyLevel.error ∨
        r.config.apprise.notify = NotifyLevel.warning) →
      (res.success = false →
        r.notificationFor res = some (ErrorNotification "Ludusavi Backup Failed"
          (r.buildErrorMessage res))) ∧
      (res.success = true → r.notificationFor res = none)) ∧
    ({ r with config := { r.config with
        apprise := { notify := NotifyLevel.error } } } : Runner).notificationFor res =
      ({ r with config := { r.config with
        apprise := { notify := NotifyLevel.warning } } } : Runner).notificationFor res := by
  refine ⟨?_, ?_, ?_⟩
  · intro hlvl
    constructor
    · intro hf
      simp [Runner.notificationFor, hlvl, hf]
    · intro hs
      simp [Runner.notificationFor, hlvl, hs]
  · intro hlvl
    constructor
    · intro hf
      rcases hlvl with h | h <;> simp [Runner.notificationFor, h, hf]
    · intro hs
      rcases hlvl with h | h <;> simp [Runner.notificationFor, h, hs]
  · cases hsf : res.success <;>
      simp [Runner.notificationFor, Runner.buildErrorMessage, hsf]

/-- A runner configured with level Always. -/
def alwaysRunner : Runner :=
  { executor := none, metricsPusher := none, notifier := some NopNotifier,
    config := { dryRun := false, apprise := { notify := NotifyLevel.always } },
    hostname := "host" }

/-- A failed cycle result with no operations recorded. -/
def failedRunResult : RunResult :=
  { success := false, dryRun := false, backup := none, cloudUpload := none,
    errors := [] }

/-- Witness for `C9_notification_policy`: with level Always, a failed
cycle produces the error notification. -/
theorem C9_notification_policy_witness :
    alwaysRunner.notificationFor failedRunResult =
      some (ErrorNotification "Ludusavi Backup Failed"
        (alwaysRunner.buildErrorMessage failedRunResult)) :=
  ((C9_notification_policy alwaysRunner failedRunResult).1 rfl).1 rfl

/-- C10: a live cycle with no executor configured attempts no
operations; the CycleResult records neither OperationResult, its success
flag is vacuously true, the returned error is nil, and the metrics-push
and notification steps still execute. -/
theorem C10_no_executor (r : Runner)
    (hex : r.executor = none) (hdry : r.config.dryRun = false) :
    (r.run).executorCalls = [] ∧
    (r.run).result.cloudUpload = none ∧
    (r.run).result.backup = none ∧
    (r.run).result.success = true ∧
    (r.run).runErr = none ∧
    (r.metricsPusher.isSome = true → (r.run).metricsPushes.length = 1) ∧
    (r.run).notificationsSent =
      (match r.notifier with
       | none => []
       | some _ =>
         match r.notificationFor (r.run).result with
         | none => []
         | some n => [n]) := by
  refine ⟨?_, ?_, ?_, ?_, rfl, ?_, ?_⟩
  · simp [Runner.run, hex]
  · simp [Runner.run, hex, addError_cloudUpload, complete_cloudUpload, NewRunResult]
  · simp [Runner.run, hex, addError_backup, complete_backup, NewRunResult]
  · simp [Runner.run, hex, addError_success, complete_success, addError_cloudUpload,
      addError_backup, complete_cloudUpload, complete_backup, NewRunResult, optSuccess]
  · intro hp
    cases hpm : r.metricsPusher with
    | none => simp [hpm] at hp
    | some p => simp [Runner.run, Runner.pushMetrics, hpm]
  · show (r.sendNotifications (r.run).result).2 = _
    rw [sendNotifications_snd]

/-- A live runner with no executor but a metrics pusher and notifier. -/
def noExecRunner : Runner :=
  { executor := none, metricsPusher := some (fun _ => none),
    notifier := some NopNotifier, config := liveConfig, hostname := "host" }

/-- Witness for `C10_no_executor` on a concrete runner. -/
theorem C10_no_executor_witness :
    (noExecRunner.run).executorCalls = [] ∧
    (noExecRunner.run).result.cloudUpload = none ∧
    (noExecRunner.run).result.backup = none ∧
    (noExecRunner.run).result.success = true ∧
    (noExecRunner.run).metricsPushes.length = 1 := by
  have h := C10_no_executor noExecRunner rfl rfl
  exact ⟨h.1, h.2.1, h.2.2.1, h.2.2.2.1, h.2.2.2.2.2.1 rfl⟩

end App

end LudusaviRunner
